import Mathlib

/-!
Shallow embedding of `loggercv/logger.py`.

The module wraps Python's `logging` facility: a `Logger` facade configures a
console handler and/or a file handler, tags every record with a `log_group`
attribute, and can suppress records whose group belongs to a filtered set.

Modelling decisions (all translated from the source, not from the spec):
* Severity levels are the numeric values of Python's `logging` module.
* Filesystem and stream I/O is modelled as a trace of `Effect`s; the presence
  of a directory (`os.path.isdir`) is an input predicate `isdir`.
* A sink write is recorded as the `LogRecord` delivered to that handler;
  wall-clock timestamps of the formatters are not modelled (the format rule of
  each handler is fixed in the source and carries no decision logic).
* Python attribute access `record.log_group` can raise `AttributeError` when
  the attribute is missing, so reading it is `Except`-valued; `extra` dicts are
  association lists.
* Python truthiness of `log_dir` (`if log_dir:`) and the `in` test of an
  `Optional[str]` against a list of strings are made explicit (`pyTruthy`,
  `pyMem`): `None` is never equal to a string.
* Each construction is modelled with a fresh logger object; the process-global
  registry keyed by logger name (two facades sharing a name) is outside the
  claims considered here.
-/

namespace LoggerCV

/-- Numeric level of `logging.DEBUG`. -/
def DEBUG : Nat := 10

/-- Numeric level of `logging.INFO`. -/
def INFO : Nat := 20

/-- Numeric level of `logging.WARNING`. -/
def WARNING : Nat := 30

/-- Numeric level of `logging.ERROR`. -/
def ERROR : Nat := 40

/-- Numeric level of `logging.CRITICAL`. -/
def CRITICAL : Nat := 50

/-- `class LoggerOptions(enum.Enum)`: NO = 0, FILE_ONLY = 1, FILE_AND_CONSOLE = 2. -/
inductive LoggerOptions
  | NO
  | FILE_ONLY
  | FILE_AND_CONSOLE
deriving DecidableEq, Repr

/-- Python truthiness of an `Optional[str]`: `None` and `""` are falsy. -/
def pyTruthy : Option String → Bool
  | none => false
  | some s => s != ""

/-- `os.path.join` on two POSIX components, as the source uses it: an
absolute second component wins; otherwise a separator is inserted unless the
first component is empty or already ends in one. The one-character tests are
spelled on the character list so they compute by reduction. -/
def osPathJoin (a b : String) : String :=
  if b.data.head? = some '/' then b
  else if a.data = [] ∨ a.data.getLast? = some '/' then a ++ b
  else a ++ "/" ++ b

/-- Python membership test `g in l` for `g : Optional[str]` and a list of
strings: `None` compares unequal to every string. -/
def pyMem (g : Option String) (l : List String) : Bool :=
  match g with
  | none => false
  | some s => l.contains s

/-- A `logging.LogRecord` as far as this module observes it: numeric level,
message, and the attributes injected through `extra=...`. -/
structure LogRecord where
  levelno : Nat
  msg : String
  attrs : List (String × Option String)
deriving DecidableEq, Repr

/-- Python attribute access on a record: raises `AttributeError` (modelled as
`Except.error`) when the attribute is absent. -/
def LogRecord.getAttr (r : LogRecord) (k : String) : Except String (Option String) :=
  match r.attrs.lookup k with
  | some v => Except.ok v
  | none => Except.error "AttributeError"

/-- The record built by the facade's emission methods:
`extra={"log_group": log_group}`. -/
def mkRecord (lvl : Nat) (msg : String) (log_group : Option String) : LogRecord :=
  { levelno := lvl, msg := msg, attrs := [("log_group", log_group)] }

/-- `class FilterLogGroups(logging.Filter)`: drops LogRecords from
`filtered_groups`. -/
structure FilterLogGroups where
  filtered_groups : List String
deriving DecidableEq, Repr

/-- `def filter(self, record): return False if record.log_group in
self.filtered_groups else True`. Reading `record.log_group` can fail. -/
def FilterLogGroups.filter (f : FilterLogGroups) (record : LogRecord) :
    Except String Bool := do
  let g ← record.getAttr "log_group"
  pure (if pyMem g f.filtered_groups then false else true)

/-- Observable side effects of the facade: recursive directory creation,
opening the log file in append mode, and one effect per record delivered to
the console or the file handler. -/
inductive Effect
  | mkdirp (path : String)
  | openFileAppend (path : String)
  | consoleRecord (record : LogRecord)
  | fileRecord (path : String) (record : LogRecord)
deriving DecidableEq, Repr

/-- The state a `Logger` facade holds after `__init__`: the fields assigned by
the constructor plus the state of the underlying `logging.Logger` it owns
(enabled flag, effective level, attached handlers with their levels, and the
list of filters added via `addFilter`). -/
structure LoggerState where
  log_name : String
  disabled : Bool
  level : Nat
  current_log_dir_full_path : Option String
  log_file_path : Option String
  has_console : Bool
  console_level : Nat
  has_file : Bool
  file_level : Nat
  filters : List FilterLogGroups
deriving DecidableEq, Repr

/-- `logging.Logger.filter`: a record passes iff every attached filter returns
a truthy value; an exception inside a filter propagates. -/
def passesFilters (fs : List FilterLogGroups) (r : LogRecord) : Except String Bool :=
  match fs with
  | [] => Except.ok true
  | f :: rest => do
      let b ← f.filter r
      if b then passesFilters rest r else pure false

/-- `logging.Logger.callHandlers` restricted to this logger's own handlers
(`propagate` bubbling reaches no configured parent): each handler whose level
is at most the record's level formats and emits the record. The handler order
follows the source's `handlers_list`. -/
def LoggerState.callHandlers (s : LoggerState) (r : LogRecord) : List Effect :=
  (if s.has_console && decide (s.console_level ≤ r.levelno) then
    [Effect.consoleRecord r] else [])
    ++ (if s.has_file && decide (s.file_level ≤ r.levelno) then
      [Effect.fileRecord (s.log_file_path.getD "") r] else [])

/-- One emission through `logging.Logger.log` machinery: `isEnabledFor` fails
when the logger is disabled or the level is below the logger's effective
level; otherwise the record is built, the filters run (a failure reading
`log_group` propagates), and on a pass every eligible handler writes. -/
def LoggerState.logEmit (s : LoggerState) (lvl : Nat) (msg : String)
    (log_group : Option String) : Except String (List Effect) :=
  if s.disabled then Except.ok []
  else if lvl < s.level then Except.ok []
  else do
    let r := mkRecord lvl msg log_group
    let pass ← passesFilters s.filters r
    pure (if pass then s.callHandlers r else [])

/-- `def info(self, msg, log_group=None)`. -/
def LoggerState.info (s : LoggerState) (msg : String) (log_group : Option String) :
    Except String (List Effect) :=
  s.logEmit INFO msg log_group

/-- `def debug(self, msg, log_group=None)`. -/
def LoggerState.debug (s : LoggerState) (msg : String) (log_group : Option String) :
    Except String (List Effect) :=
  s.logEmit DEBUG msg log_group

/-- `def warning(self, msg, log_group=None)`. -/
def LoggerState.warning (s : LoggerState) (msg : String) (log_group : Option String) :
    Except String (List Effect) :=
  s.logEmit WARNING msg log_group

/-- `def error(self, msg, log_group=None)`. -/
def LoggerState.error (s : LoggerState) (msg : String) (log_group : Option String) :
    Except String (List Effect) :=
  s.logEmit ERROR msg log_group

/-- `def critical(self, msg, log_group=None)`. -/
def LoggerState.critical (s : LoggerState) (msg : String) (log_group : Option String) :
    Except String (List Effect) :=
  s.logEmit CRITICAL msg log_group

/-- `def exception(self, msg, log_group=None)`: logs at ERROR level; the
appended stack context does not change which sinks receive the record. -/
def LoggerState.exception (s : LoggerState) (msg : String) (log_group : Option String) :
    Except String (List Effect) :=
  s.logEmit ERROR msg log_group

/-- `def log(self, severity, msg, log_group=None)`. -/
def LoggerState.log (s : LoggerState) (severity : Nat) (msg : String)
    (log_group : Option String) : Except String (List Effect) :=
  s.logEmit severity msg log_group

/-- Rendering of a Python list of strings inside an f-string; the exact text
of the announcement message carries no logic. -/
def pyListStr (l : List String) : String :=
  "[" ++ String.intercalate ", " l ++ "]"

/-- `def update_filtered_groups(self, filtered_groups)`: builds a fresh
`FilterLogGroups` and `addFilter`s it (a fresh object is never `in`
`self.filters`, so it is always appended), then, if the list is non-empty,
announces the newly filtered groups through `self.info` — i.e. through the
logger that already carries the new filter. Returns the new state and the
effects of the announcement. -/
def LoggerState.update_filtered_groups (s : LoggerState)
    (filtered_groups : List String) : LoggerState × Except String (List Effect) :=
  let s' := { s with filters := s.filters ++ [FilterLogGroups.mk filtered_groups] }
  if filtered_groups.length > 0 then
    (s', s'.info ("Filtering out log groups: " ++ pyListStr filtered_groups) none)
  else
    (s', Except.ok [])

/-- `def get_current_log_dir_full_path(self)`: on a DISABLED-mode facade the
attribute was never assigned, modelled as `none`. -/
def LoggerState.get_current_log_dir_full_path (s : LoggerState) : Option String :=
  s.current_log_dir_full_path

/-- The facade returned by the `log_options == LoggerOptions.NO` short-circuit:
`logging.getLogger(log_name)` with `disabled=True`; no path fields assigned,
no handlers, no filters. -/
def disabledLogger (log_name : String) : LoggerState :=
  { log_name := log_name, disabled := true, level := 0,
    current_log_dir_full_path := none, log_file_path := none,
    has_console := false, console_level := 0,
    has_file := false, file_level := 0, filters := [] }

/-- `self.current_log_dir_full_path`: `os.path.join(logs_base_dir, log_dir)`
when `log_dir` is truthy, else `logs_base_dir`. -/
def effectiveDir (logs_base_dir : String) (log_dir : Option String) : String :=
  if pyTruthy log_dir then osPathJoin logs_base_dir (log_dir.getD "")
  else logs_base_dir

/-- `self.log_file_path = os.path.join(self.current_log_dir_full_path,
log_name + ".log")`. -/
def logFilePath (log_name logs_base_dir : String) (log_dir : Option String) : String :=
  osPathJoin (effectiveDir logs_base_dir log_dir) (log_name ++ ".log")

/-- `Logger.__init__` for `log_options != NO`, state after `dictConfig` and
`setLevel(DEBUG)` but before the welcome messages and the initial filter:
handlers per mode with the given thresholds, no filters yet. -/
def preFilterState (log_name logs_base_dir : String) (log_dir : Option String)
    (log_options : LoggerOptions) (console_debug_lvl file_debug_level : Nat) :
    LoggerState :=
  { log_name := log_name, disabled := false, level := DEBUG,
    current_log_dir_full_path := some (effectiveDir logs_base_dir log_dir),
    log_file_path := some (logFilePath log_name logs_base_dir log_dir),
    has_console := log_options == LoggerOptions.FILE_AND_CONSOLE,
    console_level := console_debug_lvl,
    has_file := log_options == LoggerOptions.FILE_ONLY
      || log_options == LoggerOptions.FILE_AND_CONSOLE,
    file_level := file_debug_level,
    filters := [] }

/-- `Logger.__init__`, translated line by line. `isdir` is the
`os.path.isdir` view of the filesystem at construction time. Returns the
facade state and the trace of filesystem/sink effects, or the exception
raised when the directory is absent and `create_dir` is false. The
`propagate` flag only controls bubbling to a parent logger, which has no
handlers here. -/
def mkLogger (isdir : String → Bool) (log_name logs_base_dir : String)
    (log_dir : Option String) (create_dir : Bool) (log_options : LoggerOptions)
    (console_debug_lvl file_debug_level : Nat) (filtered_groups : List String)
    (propagate : Bool) : Except String (LoggerState × List Effect) :=
  if log_options = LoggerOptions.NO then
    Except.ok (disabledLogger log_name, [])
  else
    let dir := effectiveDir logs_base_dir log_dir
    do
      let dirEffects ←
        if !isdir dir then
          if create_dir then
            Except.ok [Effect.mkdirp dir]
          else
            Except.error ("Given logs base dir does not exist!\n" ++ logs_base_dir)
        else
          Except.ok ([] : List Effect)
      let filePath := logFilePath log_name logs_base_dir log_dir
      let s0 := preFilterState log_name logs_base_dir log_dir log_options
        console_debug_lvl file_debug_level
      let openEffects := [Effect.openFileAppend filePath]
      let welcome1 ← s0.info ("Initialized logger for \"" ++ log_name ++ "\"") none
      let welcome2 ← s0.info ("Saving log to " ++ filePath) none
      let su := s0.update_filtered_groups filtered_groups
      let updEffects ← su.2
      Except.ok (su.1, dirEffects ++ openEffects ++ welcome1 ++ welcome2 ++ updEffects)

/-- Does the union of the installed filters reject a record carrying this
`log_group`? -/
def rejectsB (fs : List FilterLogGroups) (g : Option String) : Bool :=
  fs.any fun f => pyMem g f.filtered_groups

/-- Union of all group names suppressed by the installed filters. -/
def suppressedUnion (s : LoggerState) : List String :=
  (s.filters.map FilterLogGroups.filtered_groups).flatten

/-- Records delivered to the file handler, in order, within an effect trace. -/
def fileWrites (effs : List Effect) : List LogRecord :=
  effs.filterMap fun e =>
    match e with
    | Effect.fileRecord _ r => some r
    | _ => none

/-- A sequence of `update_filtered_groups` calls, keeping only the state. -/
def applyUpdates (s : LoggerState) (updates : List (List String)) : LoggerState :=
  updates.foldl (fun t G => (t.update_filtered_groups G).1) s

/-- Did a fallible operation succeed? -/
def okB {α : Type} (e : Except String α) : Bool :=
  match e with
  | Except.ok _ => true
  | Except.error _ => false

/-- The first welcome record of `__init__`. -/
def welcomeRecord1 (log_name : String) : LogRecord :=
  mkRecord INFO ("Initialized logger for \"" ++ log_name ++ "\"") none

/-- The second welcome record of `__init__`. -/
def welcomeRecord2 (log_name logs_base_dir : String) (log_dir : Option String) : LogRecord :=
  mkRecord INFO ("Saving log to " ++ logFilePath log_name logs_base_dir log_dir) none

/-- The announcement record of `update_filtered_groups`. -/
def announceRecord (filtered_groups : List String) : LogRecord :=
  mkRecord INFO ("Filtering out log groups: " ++ pyListStr filtered_groups) none

/-- The facade state after a successful non-disabled `__init__`: the
pre-filter state carrying the one filter installed from
`filtered_groups`. -/
def constructedState (log_name logs_base_dir : String) (log_dir : Option String)
    (log_options : LoggerOptions) (console_debug_lvl file_debug_level : Nat)
    (filtered_groups : List String) : LoggerState :=
  { preFilterState log_name logs_base_dir log_dir log_options console_debug_lvl
      file_debug_level with
    filters := [FilterLogGroups.mk filtered_groups] }

/-- The effect trace of a successful non-disabled `__init__`: optional
directory creation, opening the log file for append, the two welcome
messages through the not-yet-filtered logger, then the announcement of the
initial filtered groups (when non-empty) through the filtered logger. -/
def constructionEffects (isdir : String → Bool) (log_name logs_base_dir : String)
    (log_dir : Option String) (log_options : LoggerOptions)
    (console_debug_lvl file_debug_level : Nat) (filtered_groups : List String) :
    List Effect :=
  (if isdir (effectiveDir logs_base_dir log_dir) then []
    else [Effect.mkdirp (effectiveDir logs_base_dir log_dir)])
    ++ [Effect.openFileAppend (logFilePath log_name logs_base_dir log_dir)]
    ++ (preFilterState log_name logs_base_dir log_dir log_options console_debug_lvl
        file_debug_level).callHandlers (welcomeRecord1 log_name)
    ++ (preFilterState log_name logs_base_dir log_dir log_options console_debug_lvl
        file_debug_level).callHandlers (welcomeRecord2 log_name logs_base_dir log_dir)
    ++ (if filtered_groups.length > 0 then
        (constructedState log_name logs_base_dir log_dir log_options console_debug_lvl
          file_debug_level filtered_groups).callHandlers (announceRecord filtered_groups)
      else [])

/-! ### Characterization lemmas -/

theorem getAttr_mkRecord (lvl : Nat) (msg : String) (g : Option String) :
    (mkRecord lvl msg g).getAttr "log_group" = Except.ok g := by
  simp [mkRecord, LogRecord.getAttr, List.lookup]

theorem filter_mkRecord (f : FilterLogGroups) (lvl : Nat) (msg : String)
    (g : Option String) :
    f.filter (mkRecord lvl msg g) = Except.ok (!pyMem g f.filtered_groups) := by
  simp only [FilterLogGroups.filter, getAttr_mkRecord, Bind.bind, Except.bind]
  cases h : pyMem g f.filtered_groups <;> simp [h, pure, Except.pure]

theorem passesFilters_mkRecord (fs : List FilterLogGroups) (lvl : Nat) (msg : String)
    (g : Option String) :
    passesFilters fs (mkRecord lvl msg g) = Except.ok (!rejectsB fs g) := by
  induction fs with
  | nil => simp [passesFilters, rejectsB]
  | cons f rest ih =>
      simp only [passesFilters, filter_mkRecord, Bind.bind, Except.bind]
      cases h : pyMem g f.filtered_groups with
      | true => simp [h, rejectsB, pure, Except.pure]
      | false => simp [h, ih, rejectsB, pure, Except.pure]

theorem rejectsB_none (fs : List FilterLogGroups) : rejectsB fs none = false := by
  simp [rejectsB, pyMem]

theorem rejectsB_append (a b : List FilterLogGroups) (g : Option String) :
    rejectsB (a ++ b) g = (rejectsB a g || rejectsB b g) := by
  simp [rejectsB, List.any_append]

theorem logEmit_eq (s : LoggerState) (lvl : Nat) (msg : String) (g : Option String)
    (hd : s.disabled = false) (hl : s.level ≤ lvl) :
    s.logEmit lvl msg g =
      Except.ok (if rejectsB s.filters g then []
        else s.callHandlers (mkRecord lvl msg g)) := by
  simp only [LoggerState.logEmit, hd, Bool.false_eq_true, if_false,
    Nat.not_lt.mpr hl, if_false, passesFilters_mkRecord, Bind.bind, Except.bind]
  cases h : rejectsB s.filters g <;> simp [h, pure, Except.pure]

theorem logEmit_exists_ok (s : LoggerState) (lvl : Nat) (msg : String)
    (g : Option String) : ∃ l, s.logEmit lvl msg g = Except.ok l := by
  by_cases hd : s.disabled = true
  · exact ⟨[], by simp [LoggerState.logEmit, hd]⟩
  · by_cases hl : lvl < s.level
    · exact ⟨[], by simp [LoggerState.logEmit, hd, hl]⟩
    · refine ⟨_, logEmit_eq s lvl msg g (by simpa using hd) (Nat.not_lt.1 hl)⟩

theorem update_fst (s : LoggerState) (G : List String) :
    (s.update_filtered_groups G).1 =
      { s with filters := s.filters ++ [FilterLogGroups.mk G] } := by
  simp only [LoggerState.update_filtered_groups]
  split <;> rfl

theorem update_snd_eq (s : LoggerState) (G : List String)
    (hd : s.disabled = false) (hl : s.level ≤ INFO) :
    (s.update_filtered_groups G).2 =
      Except.ok (if G.length > 0 then
        ({ s with filters := s.filters ++ [FilterLogGroups.mk G] }).callHandlers
          (announceRecord G)
      else []) := by
  simp only [LoggerState.update_filtered_groups]
  split
  · rename_i hlen
    have hd' : ({ s with filters := s.filters ++ [FilterLogGroups.mk G] }).disabled
        = false := hd
    have hl' : ({ s with filters := s.filters ++ [FilterLogGroups.mk G] }).level
        ≤ INFO := hl
    simp only [LoggerState.info, logEmit_eq _ _ _ _ hd' hl', rejectsB_none,
      Bool.false_eq_true, if_false, hlen, if_true, announceRecord]
  · rename_i hlen
    simp [hlen]

theorem applyUpdates_eq (updates : List (List String)) (s : LoggerState) :
    applyUpdates s updates =
      { s with filters := s.filters ++ updates.map FilterLogGroups.mk } := by
  induction updates generalizing s with
  | nil => simp [applyUpdates]
  | cons G rest ih =>
      have : applyUpdates s (G :: rest) =
          applyUpdates ((s.update_filtered_groups G).1) rest := by
        simp [applyUpdates, List.foldl_cons]
      rw [this, ih, update_fst]
      simp [List.append_assoc]

theorem mkLogger_success (isdir : String → Bool) (log_name logs_base_dir : String)
    (log_dir : Option String) (create_dir : Bool) (log_options : LoggerOptions)
    (console_debug_lvl file_debug_level : Nat) (filtered_groups : List String)
    (propagate : Bool) (hmode : log_options ≠ LoggerOptions.NO)
    (hdir : isdir (effectiveDir logs_base_dir log_dir) = true ∨ create_dir = true) :
    mkLogger isdir log_name logs_base_dir log_dir create_dir log_options
        console_debug_lvl file_debug_level filtered_groups propagate =
      Except.ok
        (constructedState log_name logs_base_dir log_dir log_options
          console_debug_lvl file_debug_level filtered_groups,
        constructionEffects isdir log_name logs_base_dir log_dir log_options
          console_debug_lvl file_debug_level filtered_groups) := by
  have hs0d : (preFilterState log_name logs_base_dir log_dir log_options
      console_debug_lvl file_debug_level).disabled = false := rfl
  have hs0l : (preFilterState log_name logs_base_dir log_dir log_options
      console_debug_lvl file_debug_level).level ≤ INFO := by
    show DEBUG ≤ INFO
    decide
  have hw1 : (preFilterState log_name logs_base_dir log_dir log_options
        console_debug_lvl file_debug_level).info
        ("Initialized logger for \"" ++ log_name ++ "\"") none =
      Except.ok ((preFilterState log_name logs_base_dir log_dir log_options
        console_debug_lvl file_debug_level).callHandlers (welcomeRecord1 log_name)) := by
    simp only [LoggerState.info, logEmit_eq _ _ _ _ hs0d hs0l, welcomeRecord1]
    show Except.ok (if rejectsB [] none then _ else _) = _
    simp [rejectsB]
  have hw2 : (preFilterState log_name logs_base_dir log_dir log_options
        console_debug_lvl file_debug_level).info
        ("Saving log to " ++ logFilePath log_name logs_base_dir log_dir) none =
      Except.ok ((preFilterState log_name logs_base_dir log_dir log_options
        console_debug_lvl file_debug_level).callHandlers
        (welcomeRecord2 log_name logs_base_dir log_dir)) := by
    simp only [LoggerState.info, logEmit_eq _ _ _ _ hs0d hs0l, welcomeRecord2]
    show Except.ok (if rejectsB [] none then _ else _) = _
    simp [rejectsB]
  have hupd : ((preFilterState log_name logs_base_dir log_dir log_options
        console_debug_lvl file_debug_level).update_filtered_groups filtered_groups).2 =
      Except.ok (if filtered_groups.length > 0 then
        (constructedState log_name logs_base_dir log_dir log_options
          console_debug_lvl file_debug_level filtered_groups).callHandlers
          (announceRecord filtered_groups)
      else []) := by
    rw [update_snd_eq _ _ hs0d hs0l]
    rfl
  unfold mkLogger
  rw [if_neg hmode]
  cases hI : isdir (effectiveDir logs_base_dir log_dir) with
  | true =>
      simp only [hI, Bool.not_true, Bool.false_eq_true, if_false, Bind.bind,
        Except.bind, hw1, hw2, hupd, update_fst, constructionEffects,
        constructedState, List.nil_append]
      simp [preFilterState]
  | false =>
      have hcd : create_dir = true := by
        cases hdir with
        | inl h => rw [h] at hI; cases hI
        | inr h => exact h
      simp only [hI, Bool.not_false, if_true, hcd, Bind.bind, Except.bind,
        hw1, hw2, hupd, update_fst, constructionEffects, constructedState,
        List.nil_append]
      simp [preFilterState]

theorem mem_callHandlers_console (s : LoggerState) (r : LogRecord) :
    Effect.consoleRecord r ∈ s.callHandlers r ↔
      s.has_console = true ∧ s.console_level ≤ r.levelno := by
  simp only [LoggerState.callHandlers, List.mem_append]
  constructor
  · intro h
    cases h with
    | inl h =>
        split at h
        · rename_i hc
          simp only [Bool.and_eq_true, decide_eq_true_eq] at hc
          exact hc
        · simp at h
    | inr h =>
        split at h <;> simp at h
  · rintro ⟨h1, h2⟩
    left
    simp [h1, h2]

theorem mem_callHandlers_file (s : LoggerState) (r : LogRecord) :
    Effect.fileRecord (s.log_file_path.getD "") r ∈ s.callHandlers r ↔
      s.has_file = true ∧ s.file_level ≤ r.levelno := by
  simp only [LoggerState.callHandlers, List.mem_append]
  constructor
  · intro h
    cases h with
    | inl h =>
        split at h <;> simp at h
    | inr h =>
        split at h
        · rename_i hc
          simp only [Bool.and_eq_true, decide_eq_true_eq] at hc
          exact hc
        · simp at h
  · rintro ⟨h1, h2⟩
    right
    simp [h1, h2]

/-! ### Claims -/

/-- C1 (counterexample): `update_filtered_groups` does not replace the active
suppression filter. Construct the facade with initial filtered groups
`["a"]`, then call `update_filtered_groups ["b"]`: a record tagged with group
`"a"` is still dropped even though `"a" ∉ ["b"]`, while a record tagged with
the fresh group `"c"` does produce output. -/
theorem update_does_not_replace_filter_cex :
    pyMem (some "a") ["b"] = false ∧
    (match mkLogger (fun _ => true) "Module" "/logs" none true
        LoggerOptions.FILE_AND_CONSOLE INFO DEBUG ["a"] false with
     | Except.ok (s, _) =>
         ((s.update_filtered_groups ["b"]).1.logEmit INFO "x" (some "a")
            = Except.ok []) ∧
         ((s.update_filtered_groups ["b"]).1.logEmit INFO "x" (some "c")
            = Except.ok [Effect.consoleRecord (mkRecord INFO "x" (some "c")),
                Effect.fileRecord "/logs/Module.log" (mkRecord INFO "x" (some "c"))])
     | Except.error _ => False) := by
  exact ⟨rfl, by rfl, by rfl⟩

/-- C1 (amended): `update_filtered_groups G` installs an additional filter on
top of the previously installed ones: afterwards a record tagged with group
`g` is dropped if and only if `g ∈ G` or `g` was already suppressed by an
earlier `update_filtered_groups` call or the construction-time groups. -/
theorem update_adds_filter_semantics (s : LoggerState) (G : List String)
    (lvl : Nat) (msg : String) (g : Option String)
    (hd : s.disabled = false) (hl : s.level ≤ lvl) :
    (s.update_filtered_groups G).1.logEmit lvl msg g =
      Except.ok (if pyMem g G || rejectsB s.filters g then []
        else (s.update_filtered_groups G).1.callHandlers (mkRecord lvl msg g)) := by
  rw [update_fst]
  have hd' : ({ s with filters := s.filters ++ [FilterLogGroups.mk G] }).disabled
      = false := hd
  have hl' : ({ s with filters := s.filters ++ [FilterLogGroups.mk G] }).level
      ≤ lvl := hl
  rw [logEmit_eq _ _ _ _ hd' hl', rejectsB_append]
  have hone : rejectsB [FilterLogGroups.mk G] g = pyMem g G := by
    simp [rejectsB]
  rw [hone, Bool.or_comm]

/-- Witness for C1's amended theorem at a concrete facade and update. -/
theorem update_adds_filter_semantics_witness :
    ((preFilterState "Module" "/logs" none LoggerOptions.FILE_AND_CONSOLE INFO
        DEBUG).update_filtered_groups ["b"]).1.logEmit INFO "x" (some "a") =
      Except.ok (if pyMem (some "a") ["b"]
          || rejectsB (preFilterState "Module" "/logs" none
            LoggerOptions.FILE_AND_CONSOLE INFO DEBUG).filters (some "a") then []
        else ((preFilterState "Module" "/logs" none LoggerOptions.FILE_AND_CONSOLE
          INFO DEBUG).update_filtered_groups ["b"]).1.callHandlers
          (mkRecord INFO "x" (some "a"))) :=
  update_adds_filter_semantics
    (preFilterState "Module" "/logs" none LoggerOptions.FILE_AND_CONSOLE INFO DEBUG)
    ["b"] INFO "x" (some "a") rfl (by decide)

/-- C2: a record is rejected by a suppression filter iff its group is
non-none and belongs to that filter's group list; a record with group `none`
passes every filter and is delivered exactly to the attached sinks whose
threshold is at most the record's severity. -/
theorem emission_filter_reject_iff (s : LoggerState) (f : FilterLogGroups)
    (lvl : Nat) (msg : String) (g : Option String)
    (hd : s.disabled = false) (hl : s.level ≤ lvl) :
    (f.filter (mkRecord lvl msg g) = Except.ok false ↔
      ∃ x, g = some x ∧ x ∈ f.filtered_groups) ∧
    (s.logEmit lvl msg none = Except.ok (s.callHandlers (mkRecord lvl msg none))) ∧
    (Effect.consoleRecord (mkRecord lvl msg none) ∈ s.callHandlers (mkRecord lvl msg none)
      ↔ s.has_console = true ∧ s.console_level ≤ lvl) ∧
    (Effect.fileRecord (s.log_file_path.getD "") (mkRecord lvl msg none)
        ∈ s.callHandlers (mkRecord lvl msg none)
      ↔ s.has_file = true ∧ s.file_level ≤ lvl) := by
  refine ⟨?_, ?_, ?_, ?_⟩
  · rw [filter_mkRecord]
    cases g with
    | none => simp [pyMem]
    | some x =>
        simp only [Except.ok.injEq, Bool.not_eq_false', pyMem]
        constructor
        · intro h
          exact ⟨x, rfl, by simpa using h⟩
        · rintro ⟨y, hy, hmem⟩
          cases hy
          simpa using hmem
  · rw [logEmit_eq _ _ _ _ hd hl, rejectsB_none]
    simp
  · simpa using mem_callHandlers_console s (mkRecord lvl msg none)
  · simpa using mem_callHandlers_file s (mkRecord lvl msg none)

/-- Witness for C2 at a concrete facade, filter, and record. -/
theorem emission_filter_reject_iff_witness :
    ((FilterLogGroups.mk ["g1"]).filter (mkRecord INFO "m" (some "g1"))
        = Except.ok false ↔
      ∃ x, (some "g1" : Option String) = some x ∧ x ∈ ["g1"]) ∧
    ((preFilterState "M" "/b" none LoggerOptions.FILE_AND_CONSOLE INFO
        DEBUG).logEmit INFO "m" none =
      Except.ok ((preFilterState "M" "/b" none LoggerOptions.FILE_AND_CONSOLE INFO
        DEBUG).callHandlers (mkRecord INFO "m" none))) ∧
    (Effect.consoleRecord (mkRecord INFO "m" none) ∈
        (preFilterState "M" "/b" none LoggerOptions.FILE_AND_CONSOLE INFO
          DEBUG).callHandlers (mkRecord INFO "m" none)
      ↔ (preFilterState "M" "/b" none LoggerOptions.FILE_AND_CONSOLE INFO
          DEBUG).has_console = true ∧
        (preFilterState "M" "/b" none LoggerOptions.FILE_AND_CONSOLE INFO
          DEBUG).console_level ≤ INFO) ∧
    (Effect.fileRecord ((preFilterState "M" "/b" none LoggerOptions.FILE_AND_CONSOLE
          INFO DEBUG).log_file_path.getD "") (mkRecord INFO "m" none) ∈
        (preFilterState "M" "/b" none LoggerOptions.FILE_AND_CONSOLE INFO
          DEBUG).callHandlers (mkRecord INFO "m" none)
      ↔ (preFilterState "M" "/b" none LoggerOptions.FILE_AND_CONSOLE INFO
          DEBUG).has_file = true ∧
        (preFilterState "M" "/b" none LoggerOptions.FILE_AND_CONSOLE INFO
          DEBUG).file_level ≤ INFO) :=
  emission_filter_reject_iff
    (preFilterState "M" "/b" none LoggerOptions.FILE_AND_CONSOLE INFO DEBUG)
    (FilterLogGroups.mk ["g1"]) INFO "m" (some "g1") rfl (by decide)

/-- C3: constructing with `log_options = NO` short-circuits before any
filesystem step: for every filesystem view and every `create_dir` value the
constructor succeeds with an empty effect trace (so nothing is created and no
directory-existence error can fire), and every logging call and every
`update_filtered_groups` announcement on the returned facade is a silent
no-op. -/
theorem disabled_mode_is_silent_noop (isdir : String → Bool)
    (log_name logs_base_dir : String) (log_dir : Option String) (create_dir : Bool)
    (console_debug_lvl file_debug_level : Nat) (filtered_groups : List String)
    (propagate : Bool) :
    (mkLogger isdir log_name logs_base_dir log_dir create_dir LoggerOptions.NO
        console_debug_lvl file_debug_level filtered_groups propagate =
      Except.ok (disabledLogger log_name, [])) ∧
    (∀ lvl msg g, (disabledLogger log_name).logEmit lvl msg g = Except.ok []) ∧
    (∀ G, ((disabledLogger log_name).update_filtered_groups G).2 = Except.ok []) := by
  refine ⟨rfl, fun lvl msg g => rfl, fun G => ?_⟩
  simp only [LoggerState.update_filtered_groups]
  split <;> rfl

/-- C4: construction fails if and only if the mode is not disabled,
`create_dir` is false, and the effective directory is absent; in that case it
raises the directory-missing exception (whose text names `logs_base_dir`),
and the error return carries no effect trace — no directory and no file was
created. -/
theorem construction_failure_characterization (isdir : String → Bool)
    (log_name logs_base_dir : String) (log_dir : Option String) (create_dir : Bool)
    (log_options : LoggerOptions) (console_debug_lvl file_debug_level : Nat)
    (filtered_groups : List String) (propagate : Bool) :
    (okB (mkLogger isdir log_name logs_base_dir log_dir create_dir log_options
        console_debug_lvl file_debug_level filtered_groups propagate) = false ↔
      log_options ≠ LoggerOptions.NO ∧ create_dir = false ∧
        isdir (effectiveDir logs_base_dir log_dir) = false) ∧
    (log_options ≠ LoggerOptions.NO → create_dir = false →
      isdir (effectiveDir logs_base_dir log_dir) = false →
      mkLogger isdir log_name logs_base_dir log_dir create_dir log_options
          console_debug_lvl file_debug_level filtered_groups propagate =
        Except.error ("Given logs base dir does not exist!\n" ++ logs_base_dir)) := by
  have herr : log_options ≠ LoggerOptions.NO → create_dir = false →
      isdir (effectiveDir logs_base_dir log_dir) = false →
      mkLogger isdir log_name logs_base_dir log_dir create_dir log_options
          console_debug_lvl file_debug_level filtered_groups propagate =
        Except.error ("Given logs base dir does not exist!\n" ++ logs_base_dir) := by
    intro hmode hcd hI
    unfold mkLogger
    rw [if_neg hmode]
    simp only [hI, Bool.not_false, if_true, hcd, Bool.false_eq_true, if_false,
      Bind.bind, Except.bind]
  refine ⟨⟨?_, ?_⟩, herr⟩
  · intro hok
    by_cases hmode : log_options = LoggerOptions.NO
    · rw [hmode] at hok
      simp [mkLogger, okB] at hok
    · by_cases hcd : create_dir = true
      · rw [mkLogger_success isdir log_name logs_base_dir log_dir create_dir
          log_options console_debug_lvl file_debug_level filtered_groups propagate
          hmode (Or.inr hcd)] at hok
        simp [okB] at hok
      · by_cases hI : isdir (effectiveDir logs_base_dir log_dir) = true
        · rw [mkLogger_success isdir log_name logs_base_dir log_dir create_dir
            log_options console_debug_lvl file_debug_level filtered_groups propagate
            hmode (Or.inl hI)] at hok
          simp [okB] at hok
        · exact ⟨hmode, by simpa using hcd, by simpa using hI⟩
  · rintro ⟨hmode, hcd, hI⟩
    rw [herr hmode hcd hI]
    rfl

/-- Witness for C4 at a concrete failing construction. -/
theorem construction_failure_characterization_witness :
    mkLogger (fun _ => false) "M" "/b" none false LoggerOptions.FILE_AND_CONSOLE
        INFO DEBUG [] false =
      Except.error ("Given logs base dir does not exist!\n" ++ "/b") :=
  (construction_failure_characterization (fun _ => false) "M" "/b" none false
    LoggerOptions.FILE_AND_CONSOLE INFO DEBUG [] false).2 (by decide) rfl rfl

/-- C5: a record that passes the suppression filters is delivered to exactly
the attached sinks whose threshold is at most its severity; with the console
threshold at ERROR an INFO record never reaches the console, while the file
sink receives it exactly when the file threshold is at most INFO. -/
theorem sink_threshold_gating (s : LoggerState) (lvl : Nat) (msg : String)
    (g : Option String) (hd : s.disabled = false) (hl : s.level ≤ lvl)
    (hf : rejectsB s.filters g = false) :
    (s.logEmit lvl msg g = Except.ok (s.callHandlers (mkRecord lvl msg g))) ∧
    (Effect.consoleRecord (mkRecord lvl msg g) ∈ s.callHandlers (mkRecord lvl msg g)
      ↔ s.has_console = true ∧ s.console_level ≤ lvl) ∧
    (Effect.fileRecord (s.log_file_path.getD "") (mkRecord lvl msg g)
        ∈ s.callHandlers (mkRecord lvl msg g)
      ↔ s.has_file = true ∧ s.file_level ≤ lvl) ∧
    (s.console_level = ERROR → lvl = INFO →
      Effect.consoleRecord (mkRecord lvl msg g) ∉ s.callHandlers (mkRecord lvl msg g)) := by
  refine ⟨?_, ?_, ?_, ?_⟩
  · rw [logEmit_eq _ _ _ _ hd hl, hf]
    simp
  · simpa using mem_callHandlers_console s (mkRecord lvl msg g)
  · simpa using mem_callHandlers_file s (mkRecord lvl msg g)
  · intro hce hlvl h
    have h2 := (mem_callHandlers_console s (mkRecord lvl msg g)).1 h
    have hlev : (mkRecord lvl msg g).levelno = lvl := rfl
    rw [hlev, hce, hlvl] at h2
    exact absurd h2.2 (by decide)

/-- Witness for C5: console threshold ERROR, file threshold DEBUG, an INFO
record with no group. -/
theorem sink_threshold_gating_witness :
    ((preFilterState "M" "/b" none LoggerOptions.FILE_AND_CONSOLE ERROR
        DEBUG).logEmit INFO "m" none =
      Except.ok ((preFilterState "M" "/b" none LoggerOptions.FILE_AND_CONSOLE ERROR
        DEBUG).callHandlers (mkRecord INFO "m" none))) ∧
    (Effect.consoleRecord (mkRecord INFO "m" none) ∈
        (preFilterState "M" "/b" none LoggerOptions.FILE_AND_CONSOLE ERROR
          DEBUG).callHandlers (mkRecord INFO "m" none)
      ↔ (preFilterState "M" "/b" none LoggerOptions.FILE_AND_CONSOLE ERROR
          DEBUG).has_console = true ∧
        (preFilterState "M" "/b" none LoggerOptions.FILE_AND_CONSOLE ERROR
          DEBUG).console_level ≤ INFO) ∧
    (Effect.fileRecord ((preFilterState "M" "/b" none LoggerOptions.FILE_AND_CONSOLE
          ERROR DEBUG).log_file_path.getD "") (mkRecord INFO "m" none) ∈
        (preFilterState "M" "/b" none LoggerOptions.FILE_AND_CONSOLE ERROR
          DEBUG).callHandlers (mkRecord INFO "m" none)
      ↔ (preFilterState "M" "/b" none LoggerOptions.FILE_AND_CONSOLE ERROR
          DEBUG).has_file = true ∧
        (preFilterState "M" "/b" none LoggerOptions.FILE_AND_CONSOLE ERROR
          DEBUG).file_level ≤ INFO) ∧
    ((preFilterState "M" "/b" none LoggerOptions.FILE_AND_CONSOLE ERROR
        DEBUG).console_level = ERROR → INFO = INFO →
      Effect.consoleRecord (mkRecord INFO "m" none) ∉
        (preFilterState "M" "/b" none LoggerOptions.FILE_AND_CONSOLE ERROR
          DEBUG).callHandlers (mkRecord INFO "m" none)) :=
  sink_threshold_gating
    (preFilterState "M" "/b" none LoggerOptions.FILE_AND_CONSOLE ERROR DEBUG)
    INFO "m" none rfl (by decide) rfl

theorem fileWrites_append (a b : List Effect) :
    fileWrites (a ++ b) = fileWrites a ++ fileWrites b := by
  simp [fileWrites]

theorem fileWrites_callHandlers (s : LoggerState) (r : LogRecord) :
    fileWrites (s.callHandlers r) =
      if s.has_file && decide (s.file_level ≤ r.levelno) then [r] else [] := by
  simp only [LoggerState.callHandlers, fileWrites_append]
  have hc : fileWrites (if s.has_console && decide (s.console_level ≤ r.levelno)
      then [Effect.consoleRecord r] else []) = [] := by
    split <;> rfl
  have hf : fileWrites (if s.has_file && decide (s.file_level ≤ r.levelno)
      then [Effect.fileRecord (s.log_file_path.getD "") r] else []) =
      (if s.has_file && decide (s.file_level ≤ r.levelno) then [r] else []) := by
    split <;> rfl
  rw [hc, hf, List.nil_append]

/-- C6 (counterexample): construct with mode = FILE_AND_CONSOLE and a file
threshold of ERROR. Construction succeeds and opens the log file, but the two
INFO-level initialization records are gated out by the file handler's
threshold, so no record is written to the file: the log file exists but is
empty. -/
theorem init_lines_file_threshold_cex :
    LoggerOptions.FILE_AND_CONSOLE ≠ LoggerOptions.NO ∧
    (match mkLogger (fun _ => true) "M" "/b" none true
        LoggerOptions.FILE_AND_CONSOLE INFO ERROR [] false with
     | Except.ok (_, effs) =>
         fileWrites effs = [] ∧ Effect.openFileAppend "/b/M.log" ∈ effs
     | Except.error _ => False) := by
  exact ⟨by decide, by rfl, by decide⟩

/-- C6 (amended): for every successful construction with mode ≠ DISABLED
whose file threshold admits INFO records, the log file is opened in append
mode and the first two records written to it are exactly the two
initialization lines (the component notice and the file-path notice); they
are emitted before the initial suppressed-group filter is installed, so the
initial groups cannot suppress them. -/
theorem init_lines_in_file_amended (isdir : String → Bool)
    (log_name logs_base_dir : String) (log_dir : Option String) (create_dir : Bool)
    (log_options : LoggerOptions) (console_debug_lvl file_debug_level : Nat)
    (filtered_groups : List String) (propagate : Bool)
    (hmode : log_options ≠ LoggerOptions.NO)
    (hdir : isdir (effectiveDir logs_base_dir log_dir) = true ∨ create_dir = true)
    (hfl : file_debug_level ≤ INFO) :
    mkLogger isdir log_name logs_base_dir log_dir create_dir log_options
        console_debug_lvl file_debug_level filtered_groups propagate =
      Except.ok (constructedState log_name logs_base_dir log_dir log_options
          console_debug_lvl file_debug_level filtered_groups,
        constructionEffects isdir log_name logs_base_dir log_dir log_options
          console_debug_lvl file_debug_level filtered_groups) ∧
    Effect.openFileAppend (logFilePath log_name logs_base_dir log_dir) ∈
      constructionEffects isdir log_name logs_base_dir log_dir log_options
        console_debug_lvl file_debug_level filtered_groups ∧
    (fileWrites (constructionEffects isdir log_name logs_base_dir log_dir
        log_options console_debug_lvl file_debug_level filtered_groups)).take 2 =
      [welcomeRecord1 log_name, welcomeRecord2 log_name logs_base_dir log_dir] := by
  have hhf : (preFilterState log_name logs_base_dir log_dir log_options
      console_debug_lvl file_debug_level).has_file = true := by
    cases log_options with
    | NO => exact absurd rfl hmode
    | FILE_ONLY => rfl
    | FILE_AND_CONSOLE => rfl
  have hdirw : fileWrites (if isdir (effectiveDir logs_base_dir log_dir) then []
      else [Effect.mkdirp (effectiveDir logs_base_dir log_dir)]) = [] := by
    split <;> rfl
  have h1 : fileWrites ((preFilterState log_name logs_base_dir log_dir log_options
      console_debug_lvl file_debug_level).callHandlers (welcomeRecord1 log_name)) =
      [welcomeRecord1 log_name] := by
    rw [fileWrites_callHandlers, hhf]
    simp [welcomeRecord1, mkRecord, preFilterState, hfl]
  have h2 : fileWrites ((preFilterState log_name logs_base_dir log_dir log_options
      console_debug_lvl file_debug_level).callHandlers
      (welcomeRecord2 log_name logs_base_dir log_dir)) =
      [welcomeRecord2 log_name logs_base_dir log_dir] := by
    rw [fileWrites_callHandlers, hhf]
    simp [welcomeRecord2, mkRecord, preFilterState, hfl]
  refine ⟨mkLogger_success isdir log_name logs_base_dir log_dir create_dir
    log_options console_debug_lvl file_debug_level filtered_groups propagate
    hmode hdir, ?_, ?_⟩
  · simp [constructionEffects]
  · simp only [constructionEffects, fileWrites_append, hdirw, h1, h2]
    have hopen : fileWrites [Effect.openFileAppend
        (logFilePath log_name logs_base_dir log_dir)] = [] := rfl
    rw [hopen]
    simp [List.take]

/-- Witness for C6's amended theorem at a concrete construction. -/
theorem init_lines_in_file_amended_witness :
    mkLogger (fun _ => true) "M" "/b" none true LoggerOptions.FILE_AND_CONSOLE
        INFO DEBUG ["g1"] false =
      Except.ok (constructedState "M" "/b" none LoggerOptions.FILE_AND_CONSOLE
          INFO DEBUG ["g1"],
        constructionEffects (fun _ => true) "M" "/b" none
          LoggerOptions.FILE_AND_CONSOLE INFO DEBUG ["g1"]) ∧
    Effect.openFileAppend (logFilePath "M" "/b" none) ∈
      constructionEffects (fun _ => true) "M" "/b" none
        LoggerOptions.FILE_AND_CONSOLE INFO DEBUG ["g1"] ∧
    (fileWrites (constructionEffects (fun _ => true) "M" "/b" none
        LoggerOptions.FILE_AND_CONSOLE INFO DEBUG ["g1"])).take 2 =
      [welcomeRecord1 "M", welcomeRecord2 "M" "/b" none] :=
  init_lines_in_file_amended (fun _ => true) "M" "/b" none true
    LoggerOptions.FILE_AND_CONSOLE INFO DEBUG ["g1"] false (by decide)
    (Or.inl rfl) (by decide)

/-- C7: `update_filtered_groups G` appends the new filter first; when `G` is
non-empty the announcement listing the filtered groups is then emitted
through the facade that already carries the new filter, and when `G` is empty
no announcement is emitted. The announcement record itself carries group
`none`, so the freshly installed filter passes it. -/
theorem update_installs_filter_before_announce (s : LoggerState) (G : List String) :
    ((s.update_filtered_groups G).1.filters = s.filters ++ [FilterLogGroups.mk G]) ∧
    ((s.update_filtered_groups G).2 =
      if G.length > 0 then
        (s.update_filtered_groups G).1.info
          ("Filtering out log groups: " ++ pyListStr G) none
      else Except.ok []) ∧
    ((FilterLogGroups.mk G).filter (announceRecord G) = Except.ok true) := by
  refine ⟨by rw [update_fst], ?_, ?_⟩
  · by_cases hlen : G.length > 0 <;>
      simp [LoggerState.update_filtered_groups, hlen]
  · simp [announceRecord, filter_mkRecord, pyMem]

/-- C8 (counterexample): with `log_dir` given as the empty string, Python's
truthiness test treats it as absent: the resolved directory is `logs_base_dir`
itself, not `os.path.join(logs_base_dir, "")` (which appends a trailing
separator). -/
theorem empty_subdir_cex :
    pyTruthy (some "") = false ∧
    osPathJoin "/b" "" = "/b/" ∧
    (match mkLogger (fun _ => true) "M" "/b" (some "") true
        LoggerOptions.FILE_AND_CONSOLE INFO DEBUG [] false with
     | Except.ok (s, _) =>
         s.get_current_log_dir_full_path = some "/b" ∧
         (some "/b" : Option String) ≠ some (osPathJoin "/b" "")
     | Except.error _ => False) := by
  exact ⟨rfl, by rfl, by rfl, by decide⟩

/-- C8 (amended): for every successful construction, the directory accessor
returns `none` when the mode is DISABLED (the attribute is never assigned),
and otherwise the effective directory, which is `os.path.join(baseDir,
subDir)` when `subDir` is given and truthy (non-empty) and `baseDir` when
`subDir` is absent or empty. -/
theorem get_log_dir_characterization (isdir : String → Bool)
    (log_name logs_base_dir : String) (log_dir : Option String) (create_dir : Bool)
    (log_options : LoggerOptions) (console_debug_lvl file_debug_level : Nat)
    (filtered_groups : List String) (propagate : Bool)
    (hdir : isdir (effectiveDir logs_base_dir log_dir) = true ∨ create_dir = true) :
    (∃ st effs, mkLogger isdir log_name logs_base_dir log_dir create_dir
        log_options console_debug_lvl file_debug_level filtered_groups propagate =
        Except.ok (st, effs) ∧
      st.get_current_log_dir_full_path =
        (if log_options = LoggerOptions.NO then none
          else some (effectiveDir logs_base_dir log_dir))) ∧
    (pyTruthy log_dir = true →
      effectiveDir logs_base_dir log_dir =
        osPathJoin logs_base_dir (log_dir.getD "")) ∧
    (pyTruthy log_dir = false → effectiveDir logs_base_dir log_dir = logs_base_dir) := by
  refine ⟨?_, fun h => by simp [effectiveDir, h], fun h => by simp [effectiveDir, h]⟩
  by_cases hmode : log_options = LoggerOptions.NO
  · subst hmode
    exact ⟨disabledLogger log_name, [], rfl, rfl⟩
  · refine ⟨_, _, mkLogger_success isdir log_name logs_base_dir log_dir create_dir
      log_options console_debug_lvl file_debug_level filtered_groups propagate
      hmode hdir, ?_⟩
    rw [if_neg hmode]
    rfl

/-- Witness for C8's amended theorem at a concrete construction with a
non-empty sub-directory. -/
theorem get_log_dir_characterization_witness :
    (∃ st effs, mkLogger (fun _ => true) "M" "/b" (some "d") true
        LoggerOptions.FILE_AND_CONSOLE INFO DEBUG [] false =
        Except.ok (st, effs) ∧
      st.get_current_log_dir_full_path =
        (if LoggerOptions.FILE_AND_CONSOLE = LoggerOptions.NO then none
          else some (effectiveDir "/b" (some "d")))) ∧
    (pyTruthy (some "d") = true →
      effectiveDir "/b" (some "d") = osPathJoin "/b" ((some "d").getD "")) ∧
    (pyTruthy (some "d") = false → effectiveDir "/b" (some "d") = "/b") :=
  get_log_dir_characterization (fun _ => true) "M" "/b" (some "d") true
    LoggerOptions.FILE_AND_CONSOLE INFO DEBUG [] false (Or.inl rfl)

/-- C9: suppression is monotone across updates. A sequence of
`update_filtered_groups` calls only appends filters (none is removed), the
facade rejects a group exactly when it belongs to some set installed at
construction or by any update, and any record whose group belongs to any set
ever passed is dropped — a group once suppressed is never un-suppressed. -/
theorem suppression_monotone (s : LoggerState) (updates : List (List String))
    (g : Option String) (lvl : Nat) (msg : String)
    (hd : s.disabled = false) (hl : s.level ≤ lvl) :
    ((applyUpdates s updates).filters =
      s.filters ++ updates.map FilterLogGroups.mk) ∧
    (rejectsB (applyUpdates s updates).filters g =
      (rejectsB s.filters g || updates.any fun G => pyMem g G)) ∧
    ((rejectsB s.filters g || updates.any fun G => pyMem g G) = true →
      (applyUpdates s updates).logEmit lvl msg g = Except.ok []) := by
  have hfe : (applyUpdates s updates).filters =
      s.filters ++ updates.map FilterLogGroups.mk := by
    rw [applyUpdates_eq]
  have hrej : rejectsB (applyUpdates s updates).filters g =
      (rejectsB s.filters g || updates.any fun G => pyMem g G) := by
    rw [hfe, rejectsB_append]
    have : ∀ us : List (List String), rejectsB (us.map FilterLogGroups.mk) g =
        us.any fun G => pyMem g G := by
      intro us
      induction us with
      | nil => rfl
      | cons u rest ih => simp [rejectsB, List.any_cons] at ih ⊢; rw [ih]
    rw [this]
  refine ⟨hfe, hrej, fun h => ?_⟩
  have hd' : (applyUpdates s updates).disabled = false := by
    rw [applyUpdates_eq]
    exact hd
  have hl' : (applyUpdates s updates).level ≤ lvl := by
    rw [applyUpdates_eq]
    exact hl
  rw [logEmit_eq _ _ _ _ hd' hl', hrej, h]
  rfl

/-- Witness for C9: constructed with groups `["a"]`, updated with `["b"]`
then `[]`; a record in the first-ever set is still dropped. -/
theorem suppression_monotone_witness :
    ((applyUpdates (constructedState "M" "/b" none LoggerOptions.FILE_AND_CONSOLE
        INFO DEBUG ["a"]) [["b"], []]).filters =
      (constructedState "M" "/b" none LoggerOptions.FILE_AND_CONSOLE INFO DEBUG
        ["a"]).filters ++ [["b"], []].map FilterLogGroups.mk) ∧
    (rejectsB (applyUpdates (constructedState "M" "/b" none
        LoggerOptions.FILE_AND_CONSOLE INFO DEBUG ["a"]) [["b"], []]).filters
        (some "a") =
      (rejectsB (constructedState "M" "/b" none LoggerOptions.FILE_AND_CONSOLE
          INFO DEBUG ["a"]).filters (some "a")
        || [["b"], []].any fun G => pyMem (some "a") G)) ∧
    ((rejectsB (constructedState "M" "/b" none LoggerOptions.FILE_AND_CONSOLE
          INFO DEBUG ["a"]).filters (some "a")
        || [["b"], []].any fun G => pyMem (some "a") G) = true →
      (applyUpdates (constructedState "M" "/b" none LoggerOptions.FILE_AND_CONSOLE
        INFO DEBUG ["a"]) [["b"], []]).logEmit INFO "x" (some "a") =
        Except.ok []) :=
  suppression_monotone
    (constructedState "M" "/b" none LoggerOptions.FILE_AND_CONSOLE INFO DEBUG ["a"])
    [["b"], []] (some "a") INFO "x" rfl (by decide)

/-- C10: every leveled emission method builds its record with the `log_group`
attribute attached (defaulting to `none` when the caller passes no group), so
a filter's read of `record.log_group` always succeeds and every public
emission method returns normally instead of raising `AttributeError`. -/
theorem log_group_attribute_total (s : LoggerState) (f : FilterLogGroups)
    (severity lvl : Nat) (msg : String) (g : Option String) :
    ((mkRecord lvl msg g).getAttr "log_group" = Except.ok g) ∧
    (∃ b, f.filter (mkRecord lvl msg g) = Except.ok b) ∧
    (∃ l, s.info msg g = Except.ok l) ∧
    (∃ l, s.debug msg g = Except.ok l) ∧
    (∃ l, s.warning msg g = Except.ok l) ∧
    (∃ l, s.error msg g = Except.ok l) ∧
    (∃ l, s.critical msg g = Except.ok l) ∧
    (∃ l, s.exception msg g = Except.ok l) ∧
    (∃ l, s.log severity msg g = Except.ok l) :=
  ⟨getAttr_mkRecord lvl msg g,
    ⟨!pyMem g f.filtered_groups, filter_mkRecord f lvl msg g⟩,
    logEmit_exists_ok s INFO msg g,
    logEmit_exists_ok s DEBUG msg g,
    logEmit_exists_ok s WARNING msg g,
    logEmit_exists_ok s ERROR msg g,
    logEmit_exists_ok s CRITICAL msg g,
    logEmit_exists_ok s ERROR msg g,
    logEmit_exists_ok s severity msg g⟩

end LoggerCV
